import Mathlib

/-!
Shallow embedding of the billboard-compliance rule engine
(`app/config/compliance_rules.py` and `app/services/compliance_checker.py`)
together with theorems settling the specification claims.

Conventions of the embedding:
* Python floats carrying billboard dimensions and rule limits are embedded
  as exact rationals (`ℚ`); every value appearing in the rules and claims
  is exactly representable, so the comparisons coincide.
* Python `datetime.utcnow()` is embedded as an explicit evaluation-time
  parameter `now : ℕ` (days for the permit-expiry comparison, also used as
  the `checked_at` stamp).
* Python exceptions are embedded as `Except EvalError`: `ValueError` from
  an enum conversion (`ZoneType(...)` / `BillboardType(...)`) and
  `AttributeError` from accessing a missing enumeration member.
* Optional attributes (`permit_number`, `permit_expiry_date` probed via
  `hasattr`, `structural_certificate_id`) are `Option` fields; Python
  truthiness of a string is "present and non-empty".
* `str.lower()` is embedded as `strLower` (ASCII case folding, which agrees
  with Python on all strings appearing in the rule engine).
-/

/-- ASCII lower-casing of a string, embedding Python's `str.lower()` on the
ASCII identifiers the rule engine handles. -/
def strLower (s : String) : String := ⟨s.data.map Char.toLower⟩

/-- Substring containment test, embedding Python's `needle in haystack` on
strings. -/
def strContainsSub (haystack needle : String) : Bool :=
  go needle.data haystack.data
where
  go (n : List Char) : List Char → Bool
    | [] => n.isPrefixOf []
    | c :: t => n.isPrefixOf (c :: t) || go n t

/-- Zone enumeration from `app/config/compliance_rules.py` (`class ZoneType`). -/
inductive ZoneType where
  | PROHIBITED
  | RESTRICTED
  | PERMITTED
  | HERITAGE
  | RESIDENTIAL
  | COMMERCIAL
  | INDUSTRIAL
deriving DecidableEq

/-- String value of each `ZoneType` member (Python `str` enum values). -/
def ZoneType.value : ZoneType → String
  | .PROHIBITED => "prohibited"
  | .RESTRICTED => "restricted"
  | .PERMITTED => "permitted"
  | .HERITAGE => "heritage"
  | .RESIDENTIAL => "residential"
  | .COMMERCIAL => "commercial"
  | .INDUSTRIAL => "industrial"

/-- Python's `ZoneType(s)` value lookup: `some` member whose value is `s`,
`none` when the call would raise `ValueError`. -/
def ZoneType.ofValue (s : String) : Option ZoneType :=
  if s = "prohibited" then some .PROHIBITED
  else if s = "restricted" then some .RESTRICTED
  else if s = "permitted" then some .PERMITTED
  else if s = "heritage" then some .HERITAGE
  else if s = "residential" then some .RESIDENTIAL
  else if s = "commercial" then some .COMMERCIAL
  else if s = "industrial" then some .INDUSTRIAL
  else none

/-- Billboard-type enumeration from `app/config/compliance_rules.py`
(`class BillboardType`). -/
inductive BillboardType where
  | UNIPOLES
  | GANTRY
  | WALL_MOUNTED
  | ROOFTOP
  | KIOSK
  | BUS_SHELTER
  | DIGITAL
  | TRADITIONAL
deriving DecidableEq

/-- String value of each `BillboardType` member. -/
def BillboardType.value : BillboardType → String
  | .UNIPOLES => "unipoles"
  | .GANTRY => "gantry"
  | .WALL_MOUNTED => "wall_mounted"
  | .ROOFTOP => "rooftop"
  | .KIOSK => "kiosk"
  | .BUS_SHELTER => "bus_shelter"
  | .DIGITAL => "digital"
  | .TRADITIONAL => "traditional"

/-- Python's `BillboardType(s)` value lookup. -/
def BillboardType.ofValue (s : String) : Option BillboardType :=
  if s = "unipoles" then some .UNIPOLES
  else if s = "gantry" then some .GANTRY
  else if s = "wall_mounted" then some .WALL_MOUNTED
  else if s = "rooftop" then some .ROOFTOP
  else if s = "kiosk" then some .KIOSK
  else if s = "bus_shelter" then some .BUS_SHELTER
  else if s = "digital" then some .DIGITAL
  else if s = "traditional" then some .TRADITIONAL
  else none

/-- Violation-type enumeration from `app/models.py` (`class ViolationType`):
exactly the six members declared there. -/
inductive ViolationType where
  | UNAUTHORIZED
  | SIZE_VIOLATION
  | LOCATION_VIOLATION
  | STRUCTURAL_ISSUE
  | CONTENT_VIOLATION
  | EXPIRED_PERMIT
deriving DecidableEq

/-- Attribute lookup `ViolationType.<name>` on the enumeration class:
`some` member for the six declared names, `none` when Python would raise
`AttributeError`. -/
def ViolationType.attrTable : String → Option ViolationType
  | "UNAUTHORIZED" => some .UNAUTHORIZED
  | "SIZE_VIOLATION" => some .SIZE_VIOLATION
  | "LOCATION_VIOLATION" => some .LOCATION_VIOLATION
  | "STRUCTURAL_ISSUE" => some .STRUCTURAL_ISSUE
  | "CONTENT_VIOLATION" => some .CONTENT_VIOLATION
  | "EXPIRED_PERMIT" => some .EXPIRED_PERMIT
  | _ => none

/-- Python runtime errors that the checker can raise. -/
inductive EvalError where
  | valueError (input : String)
  | attributeError (attrName : String)
deriving DecidableEq

/-- Base rule record (`class ComplianceRule` in
`app/config/compliance_rules.py`). -/
structure ComplianceRule where
  rule_id : String
  description : String
  severity : String
  applicable_zones : List ZoneType
  applicable_billboard_types : List BillboardType
deriving DecidableEq

/-- Size rule (`class SizeRestriction`). -/
structure SizeRestriction extends ComplianceRule where
  max_width_meters : ℚ
  max_height_meters : ℚ
  max_area_sqm : ℚ
  min_ground_clearance : ℚ := 5/2
deriving DecidableEq

/-- Location rule (`class LocationRestriction`); the nearby-place map is
kept as an association list. -/
structure LocationRestriction extends ComplianceRule where
  min_distance_from_intersection : ℚ := 30
  min_distance_from_pedestrian_path : ℚ := 1
  min_distance_from_road : ℚ := 1
  prohibited_nearby_places : List (String × ℚ) :=
    [("schools", 100), ("hospitals", 100), ("religious_places", 50),
     ("heritage_sites", 100)]
deriving DecidableEq

/-- Content rule (`class ContentRestriction`). -/
structure ContentRestriction extends ComplianceRule where
  prohibited_content : List String :=
    ["obscene", "defamatory", "inciting_violence", "hate_speech",
     "unauthorized_political"]
  required_elements : List String :=
    ["permit_number", "owner_contact", "validity_date"]
deriving DecidableEq

/-- Safety rule (`class SafetyRequirement`). -/
structure SafetyRequirement extends ComplianceRule where
  requires_structural_certificate : Bool := true
  max_wind_speed_rating : Option ℚ := none
  required_illumination : Option String := none
  fire_safety_requirements : List String := []
deriving DecidableEq

/-- Administrative rule (`class AdministrativeRequirement`). -/
structure AdministrativeRequirement extends ComplianceRule where
  requires_permit : Bool := true
  permit_renewal_years : ℕ := 1
  required_insurance : Bool := true
  tax_requirements : List String := []
deriving DecidableEq

/-- Tagged union over the five concrete rule classes, standing in for the
Python objects handed to `_create_violation`. -/
inductive Rule where
  | size (r : SizeRestriction)
  | location (r : LocationRestriction)
  | content (r : ContentRestriction)
  | safety (r : SafetyRequirement)
  | administrative (r : AdministrativeRequirement)
deriving DecidableEq

/-- Python's `rule.__class__.__name__` for each rule object. -/
def Rule.className : Rule → String
  | .size _ => "SizeRestriction"
  | .location _ => "LocationRestriction"
  | .content _ => "ContentRestriction"
  | .safety _ => "SafetyRequirement"
  | .administrative _ => "AdministrativeRequirement"

/-- Base-record view of a rule object (inherited attribute access). -/
def Rule.base : Rule → ComplianceRule
  | .size r => r.toComplianceRule
  | .location r => r.toComplianceRule
  | .content r => r.toComplianceRule
  | .safety r => r.toComplianceRule
  | .administrative r => r.toComplianceRule

/-- Access of `ViolationType.<attrName>`: the member when it exists,
`AttributeError` otherwise. -/
def violationTypeMember (attrName : String) : Except EvalError ViolationType :=
  match ViolationType.attrTable attrName with
  | some v => Except.ok v
  | none => Except.error (EvalError.attributeError attrName)

/-- Embedding of `ComplianceChecker._map_rule_to_violation_type`: dispatch on
the lower-cased class name by substring test, then fetch the named member of
the violation-type enumeration (raising `AttributeError` when that member is
not declared). -/
def map_rule_to_violation_type (rule : Rule) : Except EvalError ViolationType :=
  let rule_name := strLower rule.className
  if strContainsSub rule_name "size" then violationTypeMember "SIZE_VIOLATION"
  else if strContainsSub rule_name "location" then
    violationTypeMember "LOCATION_VIOLATION"
  else if strContainsSub rule_name "content" then
    violationTypeMember "CONTENT_VIOLATION"
  else if strContainsSub rule_name "safety" then
    violationTypeMember "SAFETY_VIOLATION"
  else violationTypeMember "ADMINISTRATIVE_VIOLATION"

/-- Violation dictionary produced by `ComplianceChecker._create_violation`. -/
structure ViolationRecord where
  rule_id : String
  type : ViolationType
  severity : String
  message : String
  rule_description : String
deriving DecidableEq

/-- Embedding of `ComplianceChecker._create_violation`: computing the
violation-type tag can raise (missing enumeration member), in which case no
dictionary is produced. -/
def create_violation (rule : Rule) (message : String) :
    Except EvalError ViolationRecord :=
  match map_rule_to_violation_type rule with
  | Except.error e => Except.error e
  | Except.ok vt =>
    Except.ok
      { rule_id := rule.base.rule_id
        type := vt
        severity := rule.base.severity
        message := message
        rule_description := rule.base.description }

/-- Billboard snapshot: exactly the attributes
`ComplianceChecker.check_billboard_compliance` and its category checks read
from the billboard object. `permit_expiry_date` is optional because the code
probes it with `hasattr`; `permit_number` and `structural_certificate_id`
are optional strings tested for Python truthiness. -/
structure BillboardSnapshot where
  id : ℕ
  zone_type : String
  billboard_type : String
  width_meters : ℚ
  height_meters : ℚ
  permit_number : Option String
  permit_expiry_date : Option ℕ
  structural_certificate_id : Option String
deriving DecidableEq

/-- Python truthiness of an optional string attribute: truthy exactly when
present and non-empty. -/
def truthyStr : Option String → Bool
  | none => false
  | some s => !(s = "")

/-- Payload under `report_data["location"]`; the measured distance is read
with `loc.get("distance_from_intersection", float("inf"))`, so it is
optional. -/
structure LocationData where
  distance_from_intersection : Option ℚ
deriving DecidableEq

/-- Payload under `report_data["content_analysis"]`; the detected-content
collection is read with `content.get("detected_content", {})`. -/
structure ContentAnalysis where
  detected_content : Option (List String)
deriving DecidableEq

/-- Report context dictionary: the two keys the category checks look up;
an absent `Option` field embeds an absent dictionary key. -/
structure ReportContext where
  location : Option LocationData
  content_analysis : Option ContentAnalysis
deriving DecidableEq

/-- Result dictionary of `check_billboard_compliance`. -/
structure ComplianceResult where
  is_compliant : Bool
  violations : List ViolationRecord
  checked_at : ℕ
  billboard_id : String
deriving DecidableEq

/-- Append step of the Python loops: `violations.append(self._create_violation
(rule, message))`, propagating a raise from `_create_violation`. -/
def appendViolation (acc : List ViolationRecord) (rule : Rule)
    (message : String) : Except EvalError (List ViolationRecord) :=
  match create_violation rule message with
  | Except.error e => Except.error e
  | Except.ok v => Except.ok (acc ++ [v])

/-- Loop body of `_check_size` for one rule: the three independent
conditions, appended in source order. -/
def size_rule_step (billboard : BillboardSnapshot) (rule : SizeRestriction)
    (acc : List ViolationRecord) : Except EvalError (List ViolationRecord) :=
  match (if billboard.width_meters > rule.max_width_meters then
          appendViolation acc (Rule.size rule) "Width exceeds maximum allowed"
         else Except.ok acc) with
  | Except.error e => Except.error e
  | Except.ok acc1 =>
    match (if billboard.height_meters > rule.max_height_meters then
            appendViolation acc1 (Rule.size rule)
              "Height exceeds maximum allowed"
           else Except.ok acc1) with
    | Except.error e => Except.error e
    | Except.ok acc2 =>
      if billboard.width_meters * billboard.height_meters >
          rule.max_area_sqm then
        appendViolation acc2 (Rule.size rule) "Area exceeds maximum allowed"
      else Except.ok acc2

/-- Embedding of `ComplianceChecker._check_size` (loop over the applicable
size rules, accumulating violations). -/
def check_size (billboard : BillboardSnapshot) :
    List SizeRestriction → List ViolationRecord →
    Except EvalError (List ViolationRecord)
  | [], acc => Except.ok acc
  | rule :: rest, acc =>
    match size_rule_step billboard rule acc with
    | Except.error e => Except.error e
    | Except.ok acc1 => check_size billboard rest acc1

/-- Guard of the location check:
`loc.get("distance_from_intersection", float("inf")) <
rule.min_distance_from_intersection`; an absent measured distance defaults
to `float("inf")`, which is never below a (finite) rule minimum. -/
def location_violates (loc : LocationData) (rule : LocationRestriction) :
    Bool :=
  match loc.distance_from_intersection with
  | some d => decide (d < rule.min_distance_from_intersection)
  | none => false

/-- Loop body of `_check_location` for one rule: only evaluated when the
report data carries a `location` key. -/
def location_rule_step (report_data : ReportContext)
    (rule : LocationRestriction) (acc : List ViolationRecord) :
    Except EvalError (List ViolationRecord) :=
  match report_data.location with
  | none => Except.ok acc
  | some loc =>
    if location_violates loc rule then
      appendViolation acc (Rule.location rule) "Too close to intersection"
    else Except.ok acc

/-- Embedding of `ComplianceChecker._check_location`. -/
def check_location (report_data : ReportContext) :
    List LocationRestriction → List ViolationRecord →
    Except EvalError (List ViolationRecord)
  | [], acc => Except.ok acc
  | rule :: rest, acc =>
    match location_rule_step report_data rule acc with
    | Except.error e => Except.error e
    | Except.ok acc1 => check_location report_data rest acc1

/-- Inner loop of `_check_content` over one rule's prohibited tags:
one violation per prohibited tag present in the detected-content
collection. -/
def content_tag_loop (rule : ContentRestriction) (detected : List String) :
    List String → List ViolationRecord →
    Except EvalError (List ViolationRecord)
  | [], acc => Except.ok acc
  | tag :: rest, acc =>
    match (if detected.contains tag then
            appendViolation acc (Rule.content rule)
              ("Prohibited content: " ++ tag)
           else Except.ok acc) with
    | Except.error e => Except.error e
    | Except.ok acc1 => content_tag_loop rule detected rest acc1

/-- Loop over the applicable content rules (body of `_check_content` after
its early return). -/
def content_rules_loop (content : ContentAnalysis) :
    List ContentRestriction → List ViolationRecord →
    Except EvalError (List ViolationRecord)
  | [], acc => Except.ok acc
  | rule :: rest, acc =>
    match content_tag_loop rule (content.detected_content.getD [])
        rule.prohibited_content acc with
    | Except.error e => Except.error e
    | Except.ok acc1 => content_rules_loop content rest acc1

/-- Embedding of `ComplianceChecker._check_content`: early return with no
violations when the report data has no `content_analysis` key. -/
def check_content (report_data : ReportContext)
    (rules : List ContentRestriction) :
    Except EvalError (List ViolationRecord) :=
  match report_data.content_analysis with
  | none => Except.ok []
  | some content => content_rules_loop content rules []

/-- Embedding of `ComplianceChecker._check_safety`: violation when the rule
requires a structural certificate and the billboard has none. -/
def check_safety (billboard : BillboardSnapshot) :
    List SafetyRequirement → List ViolationRecord →
    Except EvalError (List ViolationRecord)
  | [], acc => Except.ok acc
  | rule :: rest, acc =>
    match (if rule.requires_structural_certificate &&
              !truthyStr billboard.structural_certificate_id then
            appendViolation acc (Rule.safety rule)
              "Missing structural certificate"
           else Except.ok acc) with
    | Except.error e => Except.error e
    | Except.ok acc1 => check_safety billboard rest acc1

/-- Loop body of `_check_administrative` for one rule: the missing-permit
check, then the independent permit-expiry check (`hasattr` probe embedded as
the `Option` being `some`). -/
def administrative_rule_step (billboard : BillboardSnapshot)
    (rule : AdministrativeRequirement) (now : ℕ)
    (acc : List ViolationRecord) : Except EvalError (List ViolationRecord) :=
  match (if rule.requires_permit && !truthyStr billboard.permit_number then
          appendViolation acc (Rule.administrative rule) "Missing permit"
         else Except.ok acc) with
  | Except.error e => Except.error e
  | Except.ok acc1 =>
    match billboard.permit_expiry_date with
    | some d =>
      if d < now then
        appendViolation acc1 (Rule.administrative rule) "Permit expired"
      else Except.ok acc1
    | none => Except.ok acc1

/-- Embedding of `ComplianceChecker._check_administrative`. -/
def check_administrative (billboard : BillboardSnapshot) (now : ℕ) :
    List AdministrativeRequirement → List ViolationRecord →
    Except EvalError (List ViolationRecord)
  | [], acc => Except.ok acc
  | rule :: rest, acc =>
    match administrative_rule_step billboard rule now acc with
    | Except.error e => Except.error e
    | Except.ok acc1 => check_administrative billboard now rest acc1

/-- Selection predicate of `ComplianceConfig.get_applicable_rules`
(`is_applicable` in the source). -/
def is_applicable (zone : ZoneType) (billboard_type : BillboardType)
    (rule : ComplianceRule) : Bool :=
  rule.applicable_zones.contains zone &&
    rule.applicable_billboard_types.contains billboard_type

/-- Per-category applicable-rule lists returned by
`get_applicable_rules` (the Python result dictionary with its five fixed
keys). -/
structure ApplicableRules where
  size : List SizeRestriction
  location : List LocationRestriction
  content : List ContentRestriction
  safety : List SafetyRequirement
  administrative : List AdministrativeRequirement
deriving DecidableEq

/-- Embedding of `ComplianceConfig` (`app/config/compliance_rules.py`):
size rules are a zone-keyed mapping (association list in insertion order,
matching Python dict iteration), the other categories are lists. -/
structure ComplianceConfig where
  jurisdiction : String
  effective_date : String
  size_restrictions : List (ZoneType × SizeRestriction)
  location_restrictions : List LocationRestriction
  content_restrictions : List ContentRestriction
  safety_requirements : List SafetyRequirement
  administrative_requirements : List AdministrativeRequirement
deriving DecidableEq

/-- Embedding of `ComplianceConfig.get_applicable_rules`: for the size
category the dict's values are filtered (the key plays no role in the
filter); the list categories are filtered in order. -/
def ComplianceConfig.get_applicable_rules (config : ComplianceConfig)
    (zone : ZoneType) (billboard_type : BillboardType) : ApplicableRules :=
  { size := (config.size_restrictions.map Prod.snd).filter
      (fun r => is_applicable zone billboard_type r.toComplianceRule)
    location := config.location_restrictions.filter
      (fun r => is_applicable zone billboard_type r.toComplianceRule)
    content := config.content_restrictions.filter
      (fun r => is_applicable zone billboard_type r.toComplianceRule)
    safety := config.safety_requirements.filter
      (fun r => is_applicable zone billboard_type r.toComplianceRule)
    administrative := config.administrative_requirements.filter
      (fun r => is_applicable zone billboard_type r.toComplianceRule) }

/-- Embedding of `ComplianceChecker.check_billboard_compliance`. The outer
`try`/`except` logs and re-raises, so it is the identity on the error value;
`now` stands for both `datetime.utcnow()` reads (the `checked_at` stamp and
the permit-expiry comparison). An unrecognized (lower-cased) zone or
billboard-type string raises `ValueError` from the enum conversion before
any category check runs. -/
def check_billboard_compliance (config : ComplianceConfig)
    (billboard : BillboardSnapshot) (report_data : ReportContext) (now : ℕ) :
    Except EvalError ComplianceResult :=
  match ZoneType.ofValue (strLower billboard.zone_type) with
  | none => Except.error (EvalError.valueError (strLower billboard.zone_type))
  | some zone =>
    match BillboardType.ofValue (strLower billboard.billboard_type) with
    | none =>
      Except.error (EvalError.valueError (strLower billboard.billboard_type))
    | some billboard_type =>
      let rules := config.get_applicable_rules zone billboard_type
      match check_size billboard rules.size [] with
      | Except.error e => Except.error e
      | Except.ok v1 =>
        match check_location report_data rules.location [] with
        | Except.error e => Except.error e
        | Except.ok v2 =>
          match check_content report_data rules.content with
          | Except.error e => Except.error e
          | Except.ok v3 =>
            match check_safety billboard rules.safety [] with
            | Except.error e => Except.error e
            | Except.ok v4 =>
              match check_administrative billboard now
                  rules.administrative [] with
              | Except.error e => Except.error e
              | Except.ok v5 =>
                let violations := v1 ++ v2 ++ v3 ++ v4 ++ v5
                Except.ok
                  { is_compliant := violations.length == 0
                    violations := violations
                    checked_at := now
                    billboard_id := toString billboard.id }

/-- Python's `[z for z in ZoneType]` (declaration order). -/
def allZones : List ZoneType :=
  [.PROHIBITED, .RESTRICTED, .PERMITTED, .HERITAGE, .RESIDENTIAL,
   .COMMERCIAL, .INDUSTRIAL]

/-- Python's `[bt for bt in BillboardType]` (declaration order). -/
def allBillboardTypes : List BillboardType :=
  [.UNIPOLES, .GANTRY, .WALL_MOUNTED, .ROOFTOP, .KIOSK, .BUS_SHELTER,
   .DIGITAL, .TRADITIONAL]

/-- Default size rule `SIZE-COMM-001` from `load_default_config`. -/
def sizeRuleComm001 : SizeRestriction :=
  { rule_id := "SIZE-COMM-001"
    description := "Maximum size for commercial zone billboards"
    severity := "high"
    applicable_zones := [ZoneType.COMMERCIAL]
    applicable_billboard_types := [BillboardType.UNIPOLES, BillboardType.GANTRY]
    max_width_meters := 12
    max_height_meters := 4
    max_area_sqm := 48
    min_ground_clearance := 5/2 }

/-- Default location rule `LOC-001` from `load_default_config`. -/
def locationRule001 : LocationRestriction :=
  { rule_id := "LOC-001"
    description := "Minimum distance from intersections"
    severity := "critical"
    applicable_zones := [ZoneType.PERMITTED, ZoneType.COMMERCIAL]
    applicable_billboard_types := [BillboardType.UNIPOLES, BillboardType.GANTRY]
    min_distance_from_intersection := 30
    min_distance_from_pedestrian_path := 1
    min_distance_from_road := 1 }

/-- Default content rule `CONT-001` from `load_default_config`. -/
def contentRule001 : ContentRestriction :=
  { rule_id := "CONT-001"
    description := "Prohibited content"
    severity := "high"
    applicable_zones := allZones
    applicable_billboard_types := allBillboardTypes
    prohibited_content :=
      ["obscene", "defamatory", "inciting_violence", "hate_speech",
       "unauthorized_political"] }

/-- Default safety rule `SAFE-001` from `load_default_config`. -/
def safetyRule001 : SafetyRequirement :=
  { rule_id := "SAFE-001"
    description := "Structural safety requirements"
    severity := "critical"
    applicable_zones := allZones.filter (fun z => !(z == ZoneType.PROHIBITED))
    applicable_billboard_types := allBillboardTypes
    requires_structural_certificate := true
    max_wind_speed_rating := some 120 }

/-- Default administrative rule `ADMIN-001` from `load_default_config`. -/
def adminRule001 : AdministrativeRequirement :=
  { rule_id := "ADMIN-001"
    description := "Permit requirements"
    severity := "high"
    applicable_zones := allZones.filter (fun z => !(z == ZoneType.PROHIBITED))
    applicable_billboard_types := allBillboardTypes
    requires_permit := true
    permit_renewal_years := 1
    required_insurance := true }

/-- Embedding of `load_default_config` from
`app/config/compliance_rules.py` (the example city configuration). -/
def load_default_config : ComplianceConfig :=
  { jurisdiction := "Example City Municipal Corporation"
    effective_date := "2023-01-01"
    size_restrictions := [(ZoneType.COMMERCIAL, sizeRuleComm001)]
    location_restrictions := [locationRule001]
    content_restrictions := [contentRule001]
    safety_requirements := [safetyRule001]
    administrative_requirements := [adminRule001] }

/-- Report context with neither a `location` nor a `content_analysis` key. -/
def emptyReportContext : ReportContext :=
  { location := none, content_analysis := none }

/-- Violation dictionary produced for a size rule (the value
`_create_violation` returns, since `SIZE_VIOLATION` is a declared member). -/
def sizeViolation (r : SizeRestriction) (message : String) : ViolationRecord :=
  { rule_id := r.rule_id
    type := ViolationType.SIZE_VIOLATION
    severity := r.severity
    message := message
    rule_description := r.description }

/-- Violation dictionary produced for a location rule. -/
def locationViolation (r : LocationRestriction) (message : String) :
    ViolationRecord :=
  { rule_id := r.rule_id
    type := ViolationType.LOCATION_VIOLATION
    severity := r.severity
    message := message
    rule_description := r.description }

/-- Violation dictionary produced for a content rule. -/
def contentViolation (r : ContentRestriction) (message : String) :
    ViolationRecord :=
  { rule_id := r.rule_id
    type := ViolationType.CONTENT_VIOLATION
    severity := r.severity
    message := message
    rule_description := r.description }

/-- On a size rule, `_create_violation` succeeds with the `SIZE_VIOLATION`
tag. -/
theorem create_violation_size_eq (r : SizeRestriction) (message : String) :
    create_violation (Rule.size r) message =
      Except.ok (sizeViolation r message) := rfl

/-- On a location rule, `_create_violation` succeeds with the
`LOCATION_VIOLATION` tag. -/
theorem create_violation_location_eq (r : LocationRestriction)
    (message : String) :
    create_violation (Rule.location r) message =
      Except.ok (locationViolation r message) := rfl

/-- On a content rule, `_create_violation` succeeds with the
`CONTENT_VIOLATION` tag. -/
theorem create_violation_content_eq (r : ContentRestriction)
    (message : String) :
    create_violation (Rule.content r) message =
      Except.ok (contentViolation r message) := rfl

/-- On a safety rule, `_create_violation` raises: `SAFETY_VIOLATION` is not
a member of the violation-type enumeration. -/
theorem create_violation_safety_eq (r : SafetyRequirement) (message : String) :
    create_violation (Rule.safety r) message =
      Except.error (EvalError.attributeError "SAFETY_VIOLATION") := rfl

/-- On an administrative rule, `_create_violation` raises:
`ADMINISTRATIVE_VIOLATION` is not a member of the violation-type
enumeration. -/
theorem create_violation_administrative_eq (r : AdministrativeRequirement)
    (message : String) :
    create_violation (Rule.administrative r) message =
      Except.error (EvalError.attributeError "ADMINISTRATIVE_VIOLATION") := rfl

/-- C1. The violation classifier is claimed to be a pure total mapping into
the violation-type enumeration with `SAFETY_VIOLATION` and
`ADMINISTRATIVE_VIOLATION` among its members. Counterexample: neither
`SAFETY_VIOLATION` nor `ADMINISTRATIVE_VIOLATION` is a member of the
enumeration declared in `app/models.py`, and on the default safety rule the
classifier raises `AttributeError` instead of returning a tag. -/
theorem C1_counterexample :
    ViolationType.attrTable "SAFETY_VIOLATION" = none ∧
    ViolationType.attrTable "ADMINISTRATIVE_VIOLATION" = none ∧
    map_rule_to_violation_type (Rule.safety safetyRule001) =
      Except.error (EvalError.attributeError "SAFETY_VIOLATION") :=
  ⟨rfl, rfl, rfl⟩

/-- C1 (amended). The classifier dispatches on the rule's class name: size,
location and content rules map to the declared members `SIZE_VIOLATION`,
`LOCATION_VIOLATION` and `CONTENT_VIOLATION`; for safety rules it references
`SAFETY_VIOLATION` and for any other rule `ADMINISTRATIVE_VIOLATION`, and
since neither name is a member of the violation-type enumeration those two
branches raise `AttributeError` instead of returning a tag. -/
theorem C1_classifier_mapping (sr : SizeRestriction)
    (lr : LocationRestriction) (cr : ContentRestriction)
    (fr : SafetyRequirement) (ar : AdministrativeRequirement) :
    map_rule_to_violation_type (Rule.size sr) =
      Except.ok ViolationType.SIZE_VIOLATION ∧
    map_rule_to_violation_type (Rule.location lr) =
      Except.ok ViolationType.LOCATION_VIOLATION ∧
    map_rule_to_violation_type (Rule.content cr) =
      Except.ok ViolationType.CONTENT_VIOLATION ∧
    map_rule_to_violation_type (Rule.safety fr) =
      Except.error (EvalError.attributeError "SAFETY_VIOLATION") ∧
    map_rule_to_violation_type (Rule.administrative ar) =
      Except.error (EvalError.attributeError "ADMINISTRATIVE_VIOLATION") :=
  ⟨rfl, rfl, rfl, rfl, rfl⟩

/-- Billboard in the prohibited zone: under the default configuration no
size, location, safety or administrative rule applies there, so evaluation
completes. -/
def bbProhibitedZone : BillboardSnapshot :=
  { id := 7
    zone_type := "prohibited"
    billboard_type := "digital"
    width_meters := 10
    height_meters := 10
    permit_number := none
    permit_expiry_date := none
    structural_certificate_id := none }

/-- Commercial-zone digital billboard with no structural certificate: the
default safety rule applies and its violation construction raises. -/
def bbNoCertificate : BillboardSnapshot :=
  { id := 2
    zone_type := "commercial"
    billboard_type := "digital"
    width_meters := 2
    height_meters := 1
    permit_number := some "P-1"
    permit_expiry_date := none
    structural_certificate_id := none }

/-- C2. The claim says an exception inside a single category's check is
logged, that category contributes zero violations, and the evaluation still
returns a `ComplianceResult`. Counterexample: for a commercial-zone digital
billboard without a structural certificate, the safety category's check
raises (`SAFETY_VIOLATION` is not an enumeration member) and the whole
evaluation call fails with that exception instead of completing. -/
theorem C2_counterexample :
    check_billboard_compliance load_default_config bbNoCertificate
      emptyReportContext 0 =
    Except.error (EvalError.attributeError "SAFETY_VIOLATION") := rfl

/-- C2 (amended). The evaluation wraps everything in one handler that logs
and re-raises, so an exception during any category's check fails the whole
call: whenever a `ComplianceResult` is returned, the zone and billboard type
resolved and every one of the five category checks completed without an
exception, and the result's violations are exactly their concatenation; no
category is ever recovered to zero violations. -/
theorem C2_no_per_category_recovery (config : ComplianceConfig)
    (billboard : BillboardSnapshot) (report_data : ReportContext) (now : ℕ)
    (res : ComplianceResult)
    (h : check_billboard_compliance config billboard report_data now =
      Except.ok res) :
    ∃ zone billboard_type v1 v2 v3 v4 v5,
      ZoneType.ofValue (strLower billboard.zone_type) = some zone ∧
      BillboardType.ofValue (strLower billboard.billboard_type) =
        some billboard_type ∧
      check_size billboard
        (config.get_applicable_rules zone billboard_type).size [] =
        Except.ok v1 ∧
      check_location report_data
        (config.get_applicable_rules zone billboard_type).location [] =
        Except.ok v2 ∧
      check_content report_data
        (config.get_applicable_rules zone billboard_type).content =
        Except.ok v3 ∧
      check_safety billboard
        (config.get_applicable_rules zone billboard_type).safety [] =
        Except.ok v4 ∧
      check_administrative billboard now
        (config.get_applicable_rules zone billboard_type).administrative [] =
        Except.ok v5 ∧
      res.violations = v1 ++ v2 ++ v3 ++ v4 ++ v5 := by
  unfold check_billboard_compliance at h
  cases hz : ZoneType.ofValue (strLower billboard.zone_type) with
  | none => rw [hz] at h; exact (Except.noConfusion h)
  | some zone =>
  rw [hz] at h
  cases hb : BillboardType.ofValue (strLower billboard.billboard_type) with
  | none => rw [hb] at h; exact (Except.noConfusion h)
  | some billboard_type =>
  rw [hb] at h
  simp only [] at h
  cases h1 : check_size billboard
      (config.get_applicable_rules zone billboard_type).size [] with
  | error e => rw [h1] at h; exact (Except.noConfusion h)
  | ok v1 =>
  rw [h1] at h
  cases h2 : check_location report_data
      (config.get_applicable_rules zone billboard_type).location [] with
  | error e => rw [h2] at h; exact (Except.noConfusion h)
  | ok v2 =>
  rw [h2] at h
  cases h3 : check_content report_data
      (config.get_applicable_rules zone billboard_type).content with
  | error e => rw [h3] at h; exact (Except.noConfusion h)
  | ok v3 =>
  rw [h3] at h
  cases h4 : check_safety billboard
      (config.get_applicable_rules zone billboard_type).safety [] with
  | error e => rw [h4] at h; exact (Except.noConfusion h)
  | ok v4 =>
  rw [h4] at h
  cases h5 : check_administrative billboard now
      (config.get_applicable_rules zone billboard_type).administrative [] with
  | error e => rw [h5] at h; exact (Except.noConfusion h)
  | ok v5 =>
  rw [h5] at h
  refine ⟨zone, billboard_type, v1, v2, v3, v4, v5, rfl, rfl, h1, h2, h3, h4,
    h5, ?_⟩
  have hres : res = { is_compliant := (v1 ++ v2 ++ v3 ++ v4 ++ v5).length == 0
                      violations := v1 ++ v2 ++ v3 ++ v4 ++ v5
                      checked_at := now
                      billboard_id := toString billboard.id } :=
    (Except.ok.inj h).symm
  rw [hres]

/-- Witness for C2 (amended): the default configuration evaluates a
prohibited-zone billboard with an empty report context to a result, so the
decomposition into five exception-free category checks exists for it. -/
theorem C2_witness :
    ∃ zone billboard_type v1 v2 v3 v4 v5,
      ZoneType.ofValue (strLower bbProhibitedZone.zone_type) = some zone ∧
      BillboardType.ofValue (strLower bbProhibitedZone.billboard_type) =
        some billboard_type ∧
      check_size bbProhibitedZone
        (load_default_config.get_applicable_rules zone billboard_type).size
        [] = Except.ok v1 ∧
      check_location emptyReportContext
        (load_default_config.get_applicable_rules zone
          billboard_type).location [] = Except.ok v2 ∧
      check_content emptyReportContext
        (load_default_config.get_applicable_rules zone
          billboard_type).content = Except.ok v3 ∧
      check_safety bbProhibitedZone
        (load_default_config.get_applicable_rules zone billboard_type).safety
        [] = Except.ok v4 ∧
      check_administrative bbProhibitedZone 5
        (load_default_config.get_applicable_rules zone
          billboard_type).administrative [] = Except.ok v5 ∧
      ({ is_compliant := true
         violations := []
         checked_at := 5
         billboard_id := "7" } : ComplianceResult).violations =
        v1 ++ v2 ++ v3 ++ v4 ++ v5 :=
  C2_no_per_category_recovery load_default_config bbProhibitedZone
    emptyReportContext 5
    { is_compliant := true
      violations := []
      checked_at := 5
      billboard_id := "7" } rfl

/-- Commercial-zone billboard whose zone and type strings are upper-case
variants of enumeration values; its size and location rule lists are empty
(the default rules for those categories only cover unipoles and gantry). -/
def bbUpperCase : BillboardSnapshot :=
  { id := 3
    zone_type := "COMMERCIAL"
    billboard_type := "DIGITAL"
    width_meters := 2
    height_meters := 1
    permit_number := some "P-9"
    permit_expiry_date := none
    structural_certificate_id := some "SC-9" }

/-- C3. The claim says any zone or billboard-type string that is not a
member of the closed enumeration makes the evaluation fail. Counterexample:
`"COMMERCIAL"` and `"DIGITAL"` are not enumeration values (the values are
lower-case), yet the evaluation lower-cases before converting, accepts this
billboard and even returns `is_compliant := true`. -/
theorem C3_counterexample :
    ZoneType.ofValue "COMMERCIAL" = none ∧
    BillboardType.ofValue "DIGITAL" = none ∧
    check_billboard_compliance load_default_config bbUpperCase
      emptyReportContext 0 =
    Except.ok { is_compliant := true
                violations := []
                checked_at := 0
                billboard_id := "3" } :=
  ⟨rfl, rfl, rfl⟩

/-- C3 (amended). Whenever the lower-cased zone string or the lower-cased
billboard-type string is not a member of the respective closed enumeration,
the evaluation call fails with the invalid-classification (`ValueError`)
error and never returns a result. -/
theorem C3_invalid_classification_fails (config : ComplianceConfig)
    (billboard : BillboardSnapshot) (report_data : ReportContext) (now : ℕ)
    (h : ZoneType.ofValue (strLower billboard.zone_type) = none ∨
         BillboardType.ofValue (strLower billboard.billboard_type) = none) :
    ∃ s, check_billboard_compliance config billboard report_data now =
      Except.error (EvalError.valueError s) := by
  unfold check_billboard_compliance
  rcases h with h | h
  · rw [h]
    exact ⟨strLower billboard.zone_type, rfl⟩
  · cases hz : ZoneType.ofValue (strLower billboard.zone_type) with
    | none => exact ⟨strLower billboard.zone_type, rfl⟩
    | some zone =>
      rw [h]
      exact ⟨strLower billboard.billboard_type, rfl⟩

/-- Billboard whose zone string is `"nowhere"`, recognized by no
enumeration value even after lower-casing. -/
def bbNowhere : BillboardSnapshot :=
  { id := 9
    zone_type := "nowhere"
    billboard_type := "unipoles"
    width_meters := 2
    height_meters := 1
    permit_number := some "P-5"
    permit_expiry_date := none
    structural_certificate_id := some "SC-5" }

/-- Witness for C3 (amended): the unknown zone string `"nowhere"` makes the
evaluation fail with the invalid-classification error. -/
theorem C3_witness :
    ∃ s, check_billboard_compliance load_default_config bbNowhere
      emptyReportContext 0 = Except.error (EvalError.valueError s) :=
  C3_invalid_classification_fails load_default_config bbNowhere
    emptyReportContext 0 (Or.inl (by decide))

/-- Billboard with no permit number (empty permit attribute). -/
def bbNoPermit : BillboardSnapshot :=
  { id := 5
    zone_type := "commercial"
    billboard_type := "digital"
    width_meters := 2
    height_meters := 1
    permit_number := none
    permit_expiry_date := none
    structural_certificate_id := some "SC-1" }

/-- Billboard whose permit expired at day 50. -/
def bbExpiredPermit : BillboardSnapshot :=
  { id := 6
    zone_type := "commercial"
    billboard_type := "digital"
    width_meters := 2
    height_meters := 1
    permit_number := some "P-2"
    permit_expiry_date := some 50
    structural_certificate_id := some "SC-1" }

/-- C6. The administrative check's two conditions are evaluated as the claim
says, but emitting either violation is impossible: as soon as the
missing-permit condition (rule requires a permit, permit number empty or
absent) or the expiry condition (expiry date present and earlier than
evaluation time) fires, the violation construction looks up
`ADMINISTRATIVE_VIOLATION`, which is not a member of the violation-type
enumeration, and the check raises `AttributeError` instead of returning the
"Missing permit" or "Permit expired" violation. -/
theorem C6_administrative_check_raises :
    (adminRule001.requires_permit = true ∧
     truthyStr bbNoPermit.permit_number = false ∧
     check_administrative bbNoPermit 0 [adminRule001] [] =
       Except.error (EvalError.attributeError "ADMINISTRATIVE_VIOLATION")) ∧
    (truthyStr bbExpiredPermit.permit_number = true ∧
     bbExpiredPermit.permit_expiry_date = some 50 ∧ 50 < 100 ∧
     check_administrative bbExpiredPermit 100 [adminRule001] [] =
       Except.error (EvalError.attributeError "ADMINISTRATIVE_VIOLATION")) :=
  ⟨⟨rfl, rfl, rfl⟩, ⟨rfl, rfl, by decide, rfl⟩⟩

/-- Billboard whose permit expires at day 15, with every other attribute in
order; no size or location rule applies to a digital billboard under the
default configuration. -/
def bbExpiringPermit : BillboardSnapshot :=
  { id := 4
    zone_type := "commercial"
    billboard_type := "digital"
    width_meters := 2
    height_meters := 1
    permit_number := some "P-3"
    permit_expiry_date := some 15
    structural_certificate_id := some "SC-2" }

/-- C9. The claim says evaluation is a pure function of
(config, billboard, context). Counterexample: the code reads the clock, so
the very same triple evaluated at time 10 returns a compliant result while
at time 20 the permit-expiry condition fires and the call raises; the two
evaluations are not identical. -/
theorem C9_counterexample :
    check_billboard_compliance load_default_config bbExpiringPermit
      emptyReportContext 10 =
      Except.ok { is_compliant := true
                  violations := []
                  checked_at := 10
                  billboard_id := "4" } ∧
    check_billboard_compliance load_default_config bbExpiringPermit
      emptyReportContext 20 =
      Except.error (EvalError.attributeError "ADMINISTRATIVE_VIOLATION") :=
  ⟨rfl, rfl⟩

/-- The administrative check depends on the evaluation time only through the
permit-expiry attribute: with no expiry date its outcome is the same at any
two times. -/
theorem check_administrative_time_irrel (billboard : BillboardSnapshot)
    (t1 t2 : ℕ) (h : billboard.permit_expiry_date = none)
    (rules : List AdministrativeRequirement) :
    ∀ acc, check_administrative billboard t1 rules acc =
      check_administrative billboard t2 rules acc := by
  induction rules with
  | nil => intro acc; rfl
  | cons r rest ih =>
    intro acc
    have hstep : administrative_rule_step billboard r t1 acc =
        administrative_rule_step billboard r t2 acc := by
      unfold administrative_rule_step
      rw [h]
    simp only [check_administrative, hstep]
    cases administrative_rule_step billboard r t2 acc with
    | error e => rfl
    | ok acc1 => exact ih acc1

/-- C9 (amended). Evaluation is a deterministic function of
(config, billboard snapshot, report context, evaluation time); the time
enters the violations only through the permit-expiry comparison, so for a
billboard without a permit-expiry date the violation list (unlike the
`checked_at` stamp) is identical across any two evaluation times. -/
theorem C9_violations_time_independent (config : ComplianceConfig)
    (billboard : BillboardSnapshot) (report_data : ReportContext)
    (t1 t2 : ℕ) (h : billboard.permit_expiry_date = none) :
    Except.map ComplianceResult.violations
      (check_billboard_compliance config billboard report_data t1) =
    Except.map ComplianceResult.violations
      (check_billboard_compliance config billboard report_data t2) := by
  unfold check_billboard_compliance
  simp only [check_administrative_time_irrel billboard t1 t2 h]
  repeat' split
  all_goals rfl

/-- Witness for C9 (amended): a billboard without a permit-expiry date gets
the same violation list at times 10 and 20. -/
theorem C9_witness :
    Except.map ComplianceResult.violations
      (check_billboard_compliance load_default_config bbProhibitedZone
        emptyReportContext 10) =
    Except.map ComplianceResult.violations
      (check_billboard_compliance load_default_config bbProhibitedZone
        emptyReportContext 20) :=
  C9_violations_time_independent load_default_config bbProhibitedZone
    emptyReportContext 10 20 rfl

/-- A size rule listing two applicable zones, stored under the
`INDUSTRIAL` key of the size mapping. -/
def sizeRuleTwoZones : SizeRestriction :=
  { rule_id := "SIZE-IND-002"
    description := "Size rule stored under the industrial key"
    severity := "high"
    applicable_zones := [ZoneType.COMMERCIAL, ZoneType.INDUSTRIAL]
    applicable_billboard_types := [BillboardType.UNIPOLES]
    max_width_meters := 10
    max_height_meters := 3
    max_area_sqm := 30 }

/-- A configuration whose size mapping holds one rule per zone key
(`COMMERCIAL` and `INDUSTRIAL`), where the rule under the industrial key
also lists the commercial zone as applicable. -/
def twoSizeRuleConfig : ComplianceConfig :=
  { jurisdiction := "Two-size-rule example"
    effective_date := "2024-01-01"
    size_restrictions :=
      [(ZoneType.COMMERCIAL, sizeRuleComm001),
       (ZoneType.INDUSTRIAL, sizeRuleTwoZones)]
    location_restrictions := []
    content_restrictions := []
    safety_requirements := []
    administrative_requirements := [] }

/-- C4. The claim says the size category always yields at most one rule
because the mapping is keyed one rule per zone. Counterexample: the
selection filters the mapping's values by each rule's own applicable-zone
list and ignores the key, so a configuration whose industrial-keyed rule
also lists the commercial zone returns two size rules for a commercial
unipole. -/
theorem C4_counterexample :
    ((twoSizeRuleConfig.get_applicable_rules ZoneType.COMMERCIAL
      BillboardType.UNIPOLES).size).length = 2 := rfl

/-- Selection keeps a rule only if the requested zone is among its
applicable zones. -/
theorem is_applicable_zone_mem (zone : ZoneType)
    (billboard_type : BillboardType) (rule : ComplianceRule)
    (h : is_applicable zone billboard_type rule = true) :
    zone ∈ rule.applicable_zones := by
  unfold is_applicable at h
  exact List.elem_iff.mp (Bool.and_elim_left h)

/-- Auxiliary for C4: with pairwise-distinct size keys, each rule listing
exactly its own key as applicable zone, the filtered values hold at most
one rule. -/
theorem size_values_filter_le_one (zone : ZoneType)
    (billboard_type : BillboardType) :
    ∀ l : List (ZoneType × SizeRestriction),
      (l.map Prod.fst).Nodup →
      (∀ p ∈ l, p.2.applicable_zones = [p.1]) →
      ((l.map Prod.snd).filter
        (fun r => is_applicable zone billboard_type r.toComplianceRule)
        ).length ≤ 1 := by
  intro l
  induction l with
  | nil => intro _ _; simp
  | cons p t ih =>
    intro hnodup hzones
    rw [List.map_cons, List.filter_cons]
    by_cases hp : is_applicable zone billboard_type
        p.2.toComplianceRule = true
    · have hzp : p.1 = zone := by
        have hmem := is_applicable_zone_mem zone billboard_type _ hp
        have := hzones p (List.mem_cons_self p t)
        rw [this] at hmem
        exact (List.mem_singleton.mp hmem).symm
      have htail : (t.map Prod.snd).filter
          (fun r => is_applicable zone billboard_type r.toComplianceRule)
          = [] := by
        rw [List.filter_eq_nil_iff]
        intro r hr hpr
        obtain ⟨q, hq, hqr⟩ := List.mem_map.mp hr
        have hmem := is_applicable_zone_mem zone billboard_type _ hpr
        have hq2 := hzones q (List.mem_cons_of_mem p hq)
        rw [← hqr, hq2] at hmem
        have hqz : q.1 = zone := (List.mem_singleton.mp hmem).symm
        have hfst : p.1 ∉ t.map Prod.fst :=
          (List.nodup_cons.mp (by simpa using hnodup)).1
        exact hfst (by
          rw [hzp, ← hqz]
          exact List.mem_map.mpr ⟨q, hq, rfl⟩)
      simp [hp, htail]
    · have hp' : is_applicable zone billboard_type
          p.2.toComplianceRule = false := by
        simpa using hp
      simp only [hp', if_neg]
      refine le_trans ?_ (ih (List.nodup_cons.mp (by simpa using hnodup)).2
        (fun q hq => hzones q (List.mem_cons_of_mem p hq)))
      simp [hp']

/-- C4 (amended). The size category returns at most one rule provided the
configuration respects the keying discipline: the size mapping's keys are
pairwise distinct and each stored rule lists exactly its own key as its
applicable zone (the default configuration does). Without that discipline
the selection, which filters values by the rules' own zone lists and
ignores the keys, can return several size rules. -/
theorem C4_size_at_most_one (config : ComplianceConfig) (zone : ZoneType)
    (billboard_type : BillboardType)
    (hkeys : (config.size_restrictions.map Prod.fst).Nodup)
    (hzones : ∀ p ∈ config.size_restrictions,
      p.2.applicable_zones = [p.1]) :
    ((config.get_applicable_rules zone billboard_type).size).length ≤ 1 :=
  size_values_filter_le_one zone billboard_type config.size_restrictions
    hkeys hzones

/-- Witness for C4 (amended): the default configuration respects the keying
discipline, so a commercial unipole gets at most one size rule. -/
theorem C4_witness :
    ((load_default_config.get_applicable_rules ZoneType.COMMERCIAL
      BillboardType.UNIPOLES).size).length ≤ 1 :=
  C4_size_at_most_one load_default_config ZoneType.COMMERCIAL
    BillboardType.UNIPOLES (by decide) (by decide)

/-- Appending a size-rule violation never raises. -/
theorem appendViolation_size_eq (acc : List ViolationRecord)
    (r : SizeRestriction) (message : String) :
    appendViolation acc (Rule.size r) message =
      Except.ok (acc ++ [sizeViolation r message]) := rfl

/-- Appending a location-rule violation never raises. -/
theorem appendViolation_location_eq (acc : List ViolationRecord)
    (r : LocationRestriction) (message : String) :
    appendViolation acc (Rule.location r) message =
      Except.ok (acc ++ [locationViolation r message]) := rfl

/-- Appending a content-rule violation never raises. -/
theorem appendViolation_content_eq (acc : List ViolationRecord)
    (r : ContentRestriction) (message : String) :
    appendViolation acc (Rule.content r) message =
      Except.ok (acc ++ [contentViolation r message]) := rfl

/-- Unipole billboard of width 15 and height 3 in the commercial zone. -/
def bb15by3 : BillboardSnapshot :=
  { id := 11
    zone_type := "commercial"
    billboard_type := "unipoles"
    width_meters := 15
    height_meters := 3
    permit_number := some "P-7"
    permit_expiry_date := none
    structural_certificate_id := some "SC-7" }

/-- Unipole billboard of width 13 and height 5 in the commercial zone. -/
def bb13by5 : BillboardSnapshot :=
  { id := 12
    zone_type := "commercial"
    billboard_type := "unipoles"
    width_meters := 13
    height_meters := 5
    permit_number := some "P-7"
    permit_expiry_date := none
    structural_certificate_id := some "SC-7" }

/-- C5. The size check emits exactly one violation per exceeded condition
among width, height and area (so up to three per rule): in general the
result on one rule is the concatenation of the three conditional
singletons, and concretely width 15 x height 3 against the default
{12, 4, 48} rule yields exactly the "Width exceeds maximum allowed"
violation (area 45 < 48), while width 13 x height 5 yields all three
violations (area 65 > 48). -/
theorem C5_size_check_per_condition (billboard : BillboardSnapshot)
    (rule : SizeRestriction) :
    check_size billboard [rule] [] = Except.ok (
      (if billboard.width_meters > rule.max_width_meters then
        [sizeViolation rule "Width exceeds maximum allowed"] else []) ++
      (if billboard.height_meters > rule.max_height_meters then
        [sizeViolation rule "Height exceeds maximum allowed"] else []) ++
      (if billboard.width_meters * billboard.height_meters >
          rule.max_area_sqm then
        [sizeViolation rule "Area exceeds maximum allowed"] else [])) ∧
    check_size bb15by3 [sizeRuleComm001] [] =
      Except.ok [sizeViolation sizeRuleComm001
        "Width exceeds maximum allowed"] ∧
    check_size bb13by5 [sizeRuleComm001] [] =
      Except.ok [sizeViolation sizeRuleComm001 "Width exceeds maximum allowed",
        sizeViolation sizeRuleComm001 "Height exceeds maximum allowed",
        sizeViolation sizeRuleComm001 "Area exceeds maximum allowed"] := by
  have hgen : ∀ (bb : BillboardSnapshot) (r : SizeRestriction),
      check_size bb [r] [] = Except.ok (
        (if bb.width_meters > r.max_width_meters then
          [sizeViolation r "Width exceeds maximum allowed"] else []) ++
        (if bb.height_meters > r.max_height_meters then
          [sizeViolation r "Height exceeds maximum allowed"] else []) ++
        (if bb.width_meters * bb.height_meters > r.max_area_sqm then
          [sizeViolation r "Area exceeds maximum allowed"] else [])) := by
    intro bb r
    simp only [check_size, size_rule_step, appendViolation_size_eq]
    split_ifs <;> simp [check_size]
  refine ⟨hgen billboard rule, ?_, ?_⟩
  · rw [hgen]
    norm_num [bb15by3, sizeRuleComm001]
  · rw [hgen]
    norm_num [bb13by5, sizeRuleComm001]

/-- The inner tag loop of the content check appends one violation per
prohibited tag found in the detected-content collection, in tag order. -/
theorem content_tag_loop_ok (r : ContentRestriction)
    (detected : List String) :
    ∀ (tags : List String) (acc : List ViolationRecord),
      content_tag_loop r detected tags acc = Except.ok (acc ++
        (tags.filter (fun tag => detected.contains tag)).map
          (fun tag => contentViolation r ("Prohibited content: " ++ tag))) := by
  intro tags
  induction tags with
  | nil => intro acc; simp [content_tag_loop]
  | cons tag rest ih =>
    intro acc
    simp only [content_tag_loop, appendViolation_content_eq,
      List.filter_cons]
    by_cases h : tag ∈ detected
    · simp [h, ih]
    · simp [h, ih]

/-- The rules loop of the content check concatenates each rule's per-tag
violations in catalog order. -/
theorem content_rules_loop_ok (content : ContentAnalysis) :
    ∀ (rules : List ContentRestriction) (acc : List ViolationRecord),
      content_rules_loop content rules acc = Except.ok (acc ++
        rules.flatMap (fun r =>
          (r.prohibited_content.filter (fun tag =>
            (content.detected_content.getD []).contains tag)).map
            (fun tag => contentViolation r ("Prohibited content: " ++ tag)))) := by
  intro rules
  induction rules with
  | nil => intro acc; simp [content_rules_loop]
  | cons r rest ih =>
    intro acc
    simp only [content_rules_loop, content_tag_loop_ok, ih,
      List.flatMap_cons, List.append_assoc]

/-- Report context whose content analysis detected the single tag
`hate_speech`. -/
def ctxHateSpeech : ReportContext :=
  { location := none
    content_analysis := some { detected_content := some ["hate_speech"] } }

/-- Content rule prohibiting `hate_speech` and `obscene`. -/
def contentRuleHate : ContentRestriction :=
  { rule_id := "CONT-H"
    description := "No hate speech or obscenity"
    severity := "high"
    applicable_zones := [ZoneType.COMMERCIAL]
    applicable_billboard_types := [BillboardType.UNIPOLES]
    prohibited_content := ["hate_speech", "obscene"]
    required_elements := [] }

/-- C7. With a `content_analysis` entry present, the content check emits
exactly one violation per prohibited tag of each rule found in the
detected-content collection (none without the entry), each violation's
message referencing the matched tag; concretely, detected content
`{hate_speech}` against prohibited list `[hate_speech, obscene]` yields
exactly one violation referencing `hate_speech`. -/
theorem C7_content_check_per_matched_tag (report_data : ReportContext)
    (rules : List ContentRestriction) :
    check_content report_data rules = Except.ok (
      match report_data.content_analysis with
      | none => []
      | some content => rules.flatMap (fun r =>
          (r.prohibited_content.filter (fun tag =>
            (content.detected_content.getD []).contains tag)).map
            (fun tag => contentViolation r ("Prohibited content: " ++ tag)))) ∧
    check_content ctxHateSpeech [contentRuleHate] =
      Except.ok [contentViolation contentRuleHate
        "Prohibited content: hate_speech"] := by
  constructor
  · cases hca : report_data.content_analysis with
    | none => simp [check_content, hca]
    | some content => simp [check_content, hca, content_rules_loop_ok]
  · rfl

/-- The location check accumulates, per applicable rule in order, one
violation exactly when the report's location data violates that rule's
intersection-distance minimum; without a `location` entry it adds
nothing. -/
theorem check_location_ok (report_data : ReportContext) :
    ∀ (rules : List LocationRestriction) (acc : List ViolationRecord),
      check_location report_data rules acc = Except.ok (acc ++
        match report_data.location with
        | none => []
        | some loc => (rules.filter (fun r => location_violates loc r)).map
            (fun r => locationViolation r "Too close to intersection")) := by
  intro rules
  induction rules with
  | nil =>
    intro acc
    cases report_data.location <;> simp [check_location]
  | cons r rest ih =>
    intro acc
    simp only [check_location, location_rule_step]
    cases hloc : report_data.location with
    | none => simp [ih, hloc]
    | some loc =>
      by_cases h : location_violates loc r
      · simp [h, appendViolation_location_eq, ih, hloc, List.filter_cons]
      · simp [h, ih, hloc, List.filter_cons]

/-- C8. Location violations: with no `location` entry in the report context
the check yields zero violations regardless of the applicable rules; with a
`location` entry it yields one violation per applicable rule exactly when
the measured intersection distance is strictly below the rule's minimum
(an absent measured distance, defaulting to infinity, never is). -/
theorem C8_location_check_semantics (report_data : ReportContext)
    (rules : List LocationRestriction) :
    check_location report_data rules [] = Except.ok (
      match report_data.location with
      | none => []
      | some loc => (rules.filter (fun r => location_violates loc r)).map
          (fun r => locationViolation r "Too close to intersection")) := by
  simpa using check_location_ok report_data rules []

/-- The size check reads none of the billboard's zone or type strings. -/
theorem check_size_strings_irrel (bb : BillboardSnapshot) (z b : String)
    (rules : List SizeRestriction) :
    ∀ acc, check_size { bb with zone_type := z, billboard_type := b }
      rules acc = check_size bb rules acc := by
  induction rules with
  | nil => intro acc; rfl
  | cons r rest ih =>
    intro acc
    simp only [check_size]
    have hstep : size_rule_step
        { bb with zone_type := z, billboard_type := b } r acc =
        size_rule_step bb r acc := rfl
    rw [hstep]
    cases size_rule_step bb r acc with
    | error e => rfl
    | ok acc1 => exact ih acc1

/-- The safety check reads none of the billboard's zone or type strings. -/
theorem check_safety_strings_irrel (bb : BillboardSnapshot) (z b : String)
    (rules : List SafetyRequirement) :
    ∀ acc, check_safety { bb with zone_type := z, billboard_type := b }
      rules acc = check_safety bb rules acc := by
  induction rules with
  | nil => intro acc; rfl
  | cons r rest ih =>
    intro acc
    simp only [check_safety]
    cases hc : (if r.requires_structural_certificate &&
        !truthyStr bb.structural_certificate_id then
        appendViolation acc (Rule.safety r) "Missing structural certificate"
       else Except.ok acc) with
    | error e => rfl
    | ok acc1 => exact ih acc1

/-- The administrative check reads none of the billboard's zone or type
strings. -/
theorem check_administrative_strings_irrel (bb : BillboardSnapshot)
    (z b : String) (now : ℕ) (rules : List AdministrativeRequirement) :
    ∀ acc, check_administrative
      { bb with zone_type := z, billboard_type := b } now rules acc =
      check_administrative bb now rules acc := by
  induction rules with
  | nil => intro acc; rfl
  | cons r rest ih =>
    intro acc
    simp only [check_administrative]
    have hstep : administrative_rule_step
        { bb with zone_type := z, billboard_type := b } r now acc =
        administrative_rule_step bb r now acc := rfl
    rw [hstep]
    cases administrative_rule_step bb r now acc with
    | error e => rfl
    | ok acc1 => exact ih acc1

/-- C10. Zone and billboard-type classification is case-insensitive: the
evaluation only consumes the two strings through `str.lower()`, so
replacing them by any case variants (same lower-casing) resolves to the
same enumeration members and returns the very same result. -/
theorem C10_case_insensitive_classification (config : ComplianceConfig)
    (billboard : BillboardSnapshot) (report_data : ReportContext) (now : ℕ)
    (z b : String) (hz : strLower z = strLower billboard.zone_type)
    (hb : strLower b = strLower billboard.billboard_type) :
    ZoneType.ofValue (strLower z) =
      ZoneType.ofValue (strLower billboard.zone_type) ∧
    BillboardType.ofValue (strLower b) =
      BillboardType.ofValue (strLower billboard.billboard_type) ∧
    check_billboard_compliance config
      { billboard with zone_type := z, billboard_type := b }
      report_data now =
    check_billboard_compliance config billboard report_data now := by
  refine ⟨by rw [hz], by rw [hb], ?_⟩
  unfold check_billboard_compliance
  simp only [check_size_strings_irrel, check_safety_strings_irrel,
    check_administrative_strings_irrel]
  have hz2 : strLower
      ({ billboard with zone_type := z, billboard_type := b } :
        BillboardSnapshot).zone_type = strLower billboard.zone_type := hz
  have hb2 : strLower
      ({ billboard with zone_type := z, billboard_type := b } :
        BillboardSnapshot).billboard_type =
      strLower billboard.billboard_type := hb
  rw [hz2, hb2]

/-- Billboard with canonical lower-case zone and type strings. -/
def bbCanonical : BillboardSnapshot :=
  { id := 8
    zone_type := "commercial"
    billboard_type := "digital"
    width_meters := 2
    height_meters := 1
    permit_number := some "P-8"
    permit_expiry_date := none
    structural_certificate_id := some "SC-8" }

/-- Witness for C10: the case variants `"Commercial"` and `"DIGITAL"`
resolve like the canonical strings and give the identical evaluation
result. -/
theorem C10_witness :
    ZoneType.ofValue (strLower "Commercial") =
      ZoneType.ofValue (strLower bbCanonical.zone_type) ∧
    BillboardType.ofValue (strLower "DIGITAL") =
      BillboardType.ofValue (strLower bbCanonical.billboard_type) ∧
    check_billboard_compliance load_default_config
      { bbCanonical with zone_type := "Commercial", billboard_type := "DIGITAL" }
      emptyReportContext 0 =
    check_billboard_compliance load_default_config bbCanonical
      emptyReportContext 0 :=
  C10_case_insensitive_classification load_default_config bbCanonical
    emptyReportContext 0 "Commercial" "DIGITAL" (by decide) (by decide)
